import Mathlib

/-!
Verification of the `ai-db-studio` specification against a shallow Lean
embedding of the application's main-process code.

Conventions used throughout this development:

* Machine strings are modelled either as Lean `String` or as `List Char`
  (for the query interpreters, where character-level scanning mirrors the
  source's regular expressions).
* Byte sequences are modelled as `List Nat`.
* Fallible code (TypeScript `throw` / rejected promises) is modelled with
  `Except`, carrying the thrown error message.
* Library primitives that live outside the repository (Node's `scryptSync`
  key derivation, the AES-256-GCM keystream and authentication-tag
  computation) are taken as explicit function parameters; the repository
  code is translated faithfully around them.  AES-GCM is counter-mode
  encryption, so `cipher.update/final` XOR the plaintext with a keystream
  determined by key and IV, and `getAuthTag` computes a tag from key, IV
  and ciphertext; `decipher` with `setAuthTag` recomputes the tag and
  throws before producing any output when it differs.
* Wall-clock values (timestamps, execution times) are outside the model;
  fields derived from them are omitted or abstracted where noted.
-/

namespace AiDbStudio

/-! ## src/main/store/crypto.ts -/

/-- UTF-8 style byte encoding of a string, one code unit per character
(injective; stands for `Buffer.from(text, 'utf8')`). -/
def strBytes (s : String) : List Nat :=
  s.data.map Char.toNat

/-- Decoding of a byte list back to a string (stands for the `'utf8'`
output encoding of `decipher.update/final`). -/
def bytesStr (l : List Nat) : String :=
  ⟨l.map Char.ofNat⟩

/-- XOR of a byte list with the keystream `ks`, starting at stream
position `i` (counter-mode encryption/decryption). -/
def xorStream (ks : Nat → Nat) : Nat → List Nat → List Nat
  | _, [] => []
  | i, b :: bs => (b ^^^ ks i) :: xorStream ks (i + 1) bs

/-- The envelope produced by `encrypt`: the source serialises this record
to JSON and base64; that framing is a bijection on records of this shape,
so the envelope is modelled structurally. -/
structure Envelope where
  salt : List Nat
  iv : List Nat
  authTag : List Nat
  encrypted : List Nat
  deriving DecidableEq, Repr

/-- `encrypt(text, password)` from `crypto.ts`.  `kdf` stands for
`scryptSync`, `ks` for the AES-256-GCM keystream as a function of key and
IV, `tagF` for the authentication tag as a function of key, IV and
ciphertext.  `salt` and `iv` are the outputs of the two `randomBytes`
calls, made explicit parameters. -/
def encrypt (kdf : String → List Nat → List Nat)
    (ks : List Nat → List Nat → Nat → Nat)
    (tagF : List Nat → List Nat → List Nat → List Nat)
    (salt iv : List Nat) (text password : String) : Envelope :=
  let key := kdf password salt
  let encrypted := xorStream (ks key iv) 0 (strBytes text)
  { salt := salt, iv := iv, authTag := tagF key iv encrypted, encrypted := encrypted }

/-- The error Node's GCM decipher throws from `decipher.final()` when the
authentication tag does not verify. -/
def authFailureMsg : String :=
  "Unsupported state or unable to authenticate data"

/-- `decrypt(cipherText, password)` from `crypto.ts`.  The key is
re-derived from the password and the envelope's salt; the GCM decipher
recomputes the tag over the ciphertext and throws before emitting any
plaintext when it differs from `setAuthTag`'s value. -/
def decrypt (kdf : String → List Nat → List Nat)
    (ks : List Nat → List Nat → Nat → Nat)
    (tagF : List Nat → List Nat → List Nat → List Nat)
    (env : Envelope) (password : String) : Except String String :=
  let key := kdf password env.salt
  if tagF key env.iv env.encrypted = env.authTag then
    .ok (bytesStr (xorStream (ks key env.iv) 0 env.encrypted))
  else
    .error authFailureMsg

/-! ## src/main/connection/types.ts and src/main/store/secure-store.ts -/

/-- `PostgresConfig` from `types.ts`. -/
structure PostgresConfig where
  host : String
  port : Nat
  user : String
  password : String
  database : String
  deriving DecidableEq, Repr

/-- `MySQLConfig` from `types.ts`; `ssl` is optional. -/
structure MySQLConfig where
  host : String
  port : Nat
  user : String
  password : String
  database : String
  ssl : Option Bool
  deriving DecidableEq, Repr

/-- `SQLiteConfig` from `types.ts`; `readonly` is optional. -/
structure SQLiteConfig where
  filePath : String
  readonly : Option Bool
  deriving DecidableEq, Repr

/-- `ConnectionConfig` from `types.ts`.  Over IPC the `type` field is an
arbitrary string; the four `DbType` enum values are the recognised ones.
Each engine field is optional (`Option`), absent meaning `undefined`. -/
structure ConnectionConfig where
  id : String
  name : String
  dtype : String
  postgresql : Option PostgresConfig
  mongodb : Option String
  mysql : Option MySQLConfig
  sqlite3 : Option SQLiteConfig
  deriving DecidableEq, Repr

/-- The engine-specific sub-payload selected by `getConfig` inside
`saveEncryptedConnection`. -/
inductive SubPayload where
  | pg (c : PostgresConfig)
  | mongo (s : String)
  | my (c : MySQLConfig)
  | sqlite (c : SQLiteConfig)
  deriving DecidableEq, Repr

/-- Result of the `getConfig` switch: a recognised `type` returns the
matching config field (which may be absent, i.e. `undefined`); the
`default` branch returns JavaScript `null`. -/
inductive Selected where
  | field (v : Option SubPayload)
  | nullSel
  deriving DecidableEq, Repr

/-- The `getConfig` switch from `saveEncryptedConnection`
(`secure-store.ts`): exactly the field named by the recognised `type`
values, `null` otherwise. -/
def getConfig (config : ConnectionConfig) : Selected :=
  if config.dtype = "postgresql" then .field (config.postgresql.map .pg)
  else if config.dtype = "mongodb" then .field (config.mongodb.map .mongo)
  else if config.dtype = "mysql" then .field (config.mysql.map .my)
  else if config.dtype = "sqlite3" then .field (config.sqlite3.map .sqlite)
  else .nullSel

/-- JSON text of a string literal.  Escaping of special characters is not
modelled; on escape-free strings this is the JSON encoding and it is
injective there, which is all the claims rely on. -/
def jsonStr (s : String) : String := "\"" ++ s ++ "\""

/-- JSON text of an optional trailing field. -/
def jsonOptBool (k : String) : Option Bool → String
  | none => ""
  | some b => "," ++ jsonStr k ++ ":" ++ (if b then "true" else "false")

/-- `JSON.stringify` on the selected sub-payload object. -/
def jsonPayload : SubPayload → String
  | .pg c =>
      "\x7b" ++ jsonStr "host" ++ ":" ++ jsonStr c.host ++
      "," ++ jsonStr "port" ++ ":" ++ toString c.port ++
      "," ++ jsonStr "user" ++ ":" ++ jsonStr c.user ++
      "," ++ jsonStr "password" ++ ":" ++ jsonStr c.password ++
      "," ++ jsonStr "database" ++ ":" ++ jsonStr c.database ++ "\x7d"
  | .mongo s => jsonStr s
  | .my c =>
      "\x7b" ++ jsonStr "host" ++ ":" ++ jsonStr c.host ++
      "," ++ jsonStr "port" ++ ":" ++ toString c.port ++
      "," ++ jsonStr "user" ++ ":" ++ jsonStr c.user ++
      "," ++ jsonStr "password" ++ ":" ++ jsonStr c.password ++
      "," ++ jsonStr "database" ++ ":" ++ jsonStr c.database ++
      jsonOptBool "ssl" c.ssl ++ "\x7d"
  | .sqlite c =>
      "\x7b" ++ jsonStr "filePath" ++ ":" ++ jsonStr c.filePath ++
      jsonOptBool "readonly" c.readonly ++ "\x7d"

/-- `JSON.stringify` on the result of `getConfig`.  `JSON.stringify(null)`
is the text `null`; `JSON.stringify(undefined)` is `undefined`, modelled
as `none`. -/
def stringifySel : Selected → Option String
  | .field none => none
  | .field (some p) => some (jsonPayload p)
  | .nullSel => some "null"

/-- `StoredConnection` from `types.ts`; `encryptedConfig` is the envelope
produced by `encrypt`. -/
structure StoredConnection where
  id : String
  name : String
  dtype : String
  encryptedConfig : Envelope
  deriving DecidableEq, Repr

/-- Node's error when `cipher.update` receives `undefined` instead of a
string (the exact library text is not modelled, only that an exception is
thrown). -/
def updateUndefinedMsg : String :=
  "TypeError: the data argument must be a string"

/-- `saveEncryptedConnection(config, encryptionKey)` from
`secure-store.ts`: select the sub-payload via `getConfig`, stringify it,
encrypt, and append the new record to the stored list
(`store.set('connections', [...getAllConnections(), newConnection])`).
The store state is the list itself; the crypto primitives and the
`randomBytes` outputs are passed through to `encrypt`. -/
def saveEncryptedConnection (kdf : String → List Nat → List Nat)
    (ks : List Nat → List Nat → Nat → Nat)
    (tagF : List Nat → List Nat → List Nat → List Nat)
    (salt iv : List Nat)
    (stored : List StoredConnection) (config : ConnectionConfig)
    (encryptionKey : String) : Except String (List StoredConnection) :=
  match stringifySel (getConfig config) with
  | none => .error updateUndefinedMsg
  | some text =>
      .ok (stored ++
        [{ id := config.id, name := config.name, dtype := config.dtype,
           encryptedConfig := encrypt kdf ks tagF salt iv text encryptionKey }])

/-- `deleteConnection(id)` from `secure-store.ts`: keep every record whose
id differs. -/
def deleteStoredConnection (stored : List StoredConnection) (id : String) :
    List StoredConnection :=
  stored.filter (fun c => c.id ≠ id)

/-! ## src/main/db/mongodb.ts — the Mongo query interpreter -/

/-- The whitespace class removed by JavaScript `String.prototype.trim`
(the common ASCII subset). -/
def isJsSpace (c : Char) : Bool :=
  c = ' ' || c = '\t' || c = '\n' || c = '\r' || c = Char.ofNat 11 || c = Char.ofNat 12

/-- JavaScript `trim()` on a character list. -/
def trimL (l : List Char) : List Char :=
  ((l.dropWhile isJsSpace).reverse.dropWhile isJsSpace).reverse

/-- The character class `[a-zA-Z0-9_]` of the interpreter's patterns. -/
def isIdentChar (c : Char) : Bool :=
  c.isAlphanum || c = '_'

/-- The generic pattern of `Mongodb.executeQuery`:
the anchored match of `db.<ident>.<ident>(<args>)` against the trimmed
query, returning the captured collection name, method name and argument
text.  The identifier captures are the maximal `[a-zA-Z0-9_]` runs (the
character after each capture is `.` or `(`, which no backtracked shorter
capture could produce), and `<args>` is everything strictly between the
opening parenthesis and a final `)` that must be the last character. -/
def matchGeneric (q : List Char) : Option (List Char × List Char × List Char) :=
  match q with
  | 'd' :: 'b' :: '.' :: rest =>
      let coll := rest.takeWhile isIdentChar
      if coll = [] then none else
      match rest.dropWhile isIdentChar with
      | '.' :: r2 =>
          let meth := r2.takeWhile isIdentChar
          if meth = [] then none else
          match r2.dropWhile isIdentChar with
          | '(' :: r4 =>
              match r4.reverse with
              | ')' :: revArgs => some (coll, meth, revArgs.reverse)
              | _ => none
          | _ => none
      | _ => none
  | _ => none

/-- The `find` pattern of `Mongodb.executeQuery`: the generic pattern with
the method capture fixed to the literal `find` (the lazy argument capture
coincides with the greedy one because the closing parenthesis is anchored
at the end of the string). -/
def matchFind (q : List Char) : Option (List Char × List Char) :=
  match matchGeneric q with
  | some (coll, meth, args) => if meth = "find".data then some (coll, args) else none
  | none => none

/-- The single rejection error thrown by `Mongodb.executeQuery` for any
query it does not execute. -/
def invalidMongoMsg : List Char :=
  "Invalid MongoDB query format. Supported operations: find, aggregate".data

/-- The operation the interpreter goes on to execute against the named
collection; returning an action stands for the collection being accessed. -/
inductive MongoAction where
  | find (coll : List Char) (args : List Char)
  | aggregate (coll : List Char) (args : List Char)
  deriving DecidableEq, Repr

/-- `Mongodb.executeQuery(query)` up to the point where a collection is
accessed: try the `find` pattern, then the generic pattern accepted only
when the captured method is `aggregate`; everything else throws the single
`invalidMongoMsg` error.  Argument parsing and the collection calls
themselves happen only after an action is produced. -/
def Mongodb.executeQuery (query : List Char) : Except (List Char) MongoAction :=
  match matchFind (trimL query) with
  | some (coll, args) => .ok (.find coll args)
  | none =>
      match matchGeneric (trimL query) with
      | some (coll, meth, args) =>
          if meth = "aggregate".data then .ok (.aggregate coll args)
          else .error invalidMongoMsg
      | none => .error invalidMongoMsg

/-! ## src/main/db/sqlite.ts -/

/-- A row returned by the SQLite client: either a data record produced by
`stmt.all()` or the synthetic summary object built after `stmt.run()`. -/
inductive SqlRow where
  | record (cells : List (List Char × List Char))
  | summary (changes : Nat) (lastInsertRowid : Int) (message : List Char)
  deriving DecidableEq, Repr

/-- The object `stmt.run()` returns for a mutating statement. -/
structure RunResult where
  changes : Nat
  lastInsertRowid : Int
  deriving DecidableEq, Repr

/-- The live better-sqlite3 handle, abstracted as oracles for the engine:
`allRows` is `prepare(q).all()`, `runStmt` is `prepare(q).run()`, and
`introspection` is the assembled result of the catalog queries issued by
`getSchemaVisualization` (whose row-shaping does not bear on any claim).
Engine-raised exceptions are rethrown unchanged by the source and are
outside the modelled claims. -/
structure SqliteHandle where
  allRows : List Char → List SqlRow
  runStmt : List Char → RunResult
  introspection : List String

/-- The message of the synthetic summary row. -/
def sqliteSummaryMessage (changes : Nat) : List Char :=
  ("Query executed successfully. " ++ toString changes ++ " row(s) affected.").data

/-- The error thrown by every SQLite method when `this.db` is `null`. -/
def sqliteNotConnectedMsg : List Char :=
  "SQLite connection not established".data

/-- `SQLite.executeQuery(query)`: with no handle, throw; otherwise trim,
uppercase, and route on the `SELECT` / `WITH` / `PRAGMA` test —
reads return `stmt.all()`, everything else returns the one-element
synthetic summary of `stmt.run()`. -/
def SQLite.executeQuery (db : Option SqliteHandle) (query : List Char) :
    Except (List Char) (List SqlRow) :=
  match db with
  | none => .error sqliteNotConnectedMsg
  | some h =>
      let t := (trimL query).map Char.toUpper
      if "SELECT".data.isPrefixOf t || "WITH".data.isPrefixOf t ||
          "PRAGMA".data.isPrefixOf t then
        .ok (h.allRows query)
      else
        let r := h.runStmt query
        .ok [.summary r.changes r.lastInsertRowid (sqliteSummaryMessage r.changes)]

/-- `SQLite.getSchemaVisualization()`: with no handle, throw; otherwise
the introspection result. -/
def SQLite.getSchemaVisualization (db : Option SqliteHandle) :
    Except (List Char) (List String) :=
  match db with
  | none => .error sqliteNotConnectedMsg
  | some h => .ok h.introspection

/-- The `private db` field starts out `null` in the constructor. -/
def SQLite.initState : Option SqliteHandle := none

/-- `SQLite.disconnect()`: close the handle if present and set the field
to `null`; the resulting state is always `null`. -/
def SQLite.disconnect (_db : Option SqliteHandle) : Option SqliteHandle := none

/-! ## src/main/db/mysql.ts -/

/-- A row returned by the MySQL client: a data record, or the synthetic
summary built from a `ResultSetHeader` for non-SELECT statements. -/
inductive MyRow where
  | record (cells : List (List Char × List Char))
  | summary (affectedRows : Nat) (insertId : Nat) (changedRows : Nat)
      (message : List Char)
  deriving DecidableEq, Repr

/-- What `connection.execute(query)` yields: an array of rows for result
sets, or a `ResultSetHeader` otherwise (`changedRows` and `info` may be
absent). -/
inductive MySqlExec where
  | rows (rs : List MyRow)
  | header (affectedRows : Nat) (insertId : Nat) (changedRows : Option Nat)
      (info : Option (List Char))
  deriving DecidableEq, Repr

/-- The live mysql2 connection, abstracted as engine oracles in the same
way as `SqliteHandle`. -/
structure MySqlHandle where
  execute : List Char → MySqlExec
  introspection : List String

/-- The error thrown by every MySQL method when `this.connection` is
`null`. -/
def mysqlNotConnectedMsg : List Char :=
  "MySQL connection not established".data

/-- `MySQL.executeQuery(query)`: with no handle, throw; otherwise pass the
rows through, or build the one-element summary from the header
(`changedRows || 0`, `info || 'Query executed successfully'`). -/
def MySQL.executeQuery (conn : Option MySqlHandle) (query : List Char) :
    Except (List Char) (List MyRow) :=
  match conn with
  | none => .error mysqlNotConnectedMsg
  | some h =>
      match h.execute query with
      | .rows rs => .ok rs
      | .header a i c info =>
          .ok [.summary a i (c.getD 0) (info.getD "Query executed successfully".data)]

/-- `MySQL.getSchemaVisualization()`: with no handle, throw; otherwise the
introspection result. -/
def MySQL.getSchemaVisualization (conn : Option MySqlHandle) :
    Except (List Char) (List String) :=
  match conn with
  | none => .error mysqlNotConnectedMsg
  | some h => .ok h.introspection

/-- The `private connection` field starts out `null` in the constructor. -/
def MySQL.initState : Option MySqlHandle := none

/-- `MySQL.disconnect()`: end the connection if present and set the field
to `null`. -/
def MySQL.disconnect (_conn : Option MySqlHandle) : Option MySqlHandle := none

/-! ## src/main/connection/manager.ts -/

/-- A `ClientInstance` entry of the Connection Manager.  The constructed
`DatabaseClient` object is represented by its identity `clientId` (so
that distinct constructions are distinguishable); `tables` is optional
exactly as in the source (`tables?: any[]`), with the schema entries kept
opaque as strings. -/
structure ClientInstance where
  dtype : String
  clientId : Nat
  tables : Option (List String)
  lastUsed : Nat
  deriving DecidableEq, Repr

/-- The `ACTIVE_CLIENTS` map, as an association list keyed by connection
id.  A JavaScript `Map` holds at most one entry per key, which here is the
invariant that the key list is duplicate-free. -/
abbrev Registry := List (String × ClientInstance)

/-- `getActiveClient(id)`: `ACTIVE_CLIENTS.get(id) || null`. -/
def getActiveClient (reg : Registry) (id : String) : Option ClientInstance :=
  match List.find? (fun p => p.1 = id) reg with
  | some p => some p.2
  | none => none

/-- `Map.set(id, v)`: replace the entry in place when the key is present,
append otherwise. -/
def mapSet (reg : Registry) (id : String) (v : ClientInstance) : Registry :=
  if List.any reg (fun p => p.1 = id) then
    List.map (fun p => if p.1 = id then (id, v) else p) reg
  else reg ++ [(id, v)]

/-- `removeActiveClient(id)`: when an instance is present, disconnect it
(an external effect, performed only for PostgreSQL clients) and
`Map.delete` the entry; otherwise do nothing. -/
def removeActiveClient (reg : Registry) (id : String) : Registry :=
  match getActiveClient reg id with
  | some _ => List.filter (fun p => p.1 ≠ id) reg
  | none => reg

/-! ## src/main/ipc/handlers.ts -/

/-- An IPC response as produced by `ErrorHandler.formatSuccessResponse` /
`formatErrorResponse`: success carries the payload and an optional
message; failure carries the error message, the `ErrorType`, the optional
code and the retryable flag.  (Timestamps are wall-clock values and are
omitted.) -/
inductive Resp (α : Type) where
  | ok (data : α) (message : Option String)
  | err (message : String) (etype : String) (code : Option String) (retryable : Bool)
  deriving DecidableEq, Repr

/-- The decrypted connection record `getDecryptedConnection` returns to
the CONNECT_DB handler (only the fields the handler reads). -/
structure DecryptedConn where
  id : String
  name : String
  dtype : String
  deriving DecidableEq, Repr

/-- The CONNECT_DB handler.  External outcomes are explicit parameters:
`decRes` is the outcome of `getDecryptedConnection(id, encryptionKey)`;
`factoryRes` the outcome of `createDatabaseClient(config)` (the identity
of the client it would construct); `clientRun` the combined outcome of
`client.connect()` followed by `client.getSchemaVisualization()`; and
`wrapErr` is the catch-branch classification
(`handleEncryptionError` / `handleDatabaseError`), abstracted because no
claim inspects it.  The last component of the result counts how many
database clients the call constructed. -/
def connectDbHandler (wrapErr : String → Resp (List String))
    (decRes : Except String DecryptedConn)
    (factoryRes : Except String Nat)
    (clientRun : Nat → Except String (List String))
    (reg : Registry) (id : String) (now : Nat) :
    Resp (List String) × Registry × Nat :=
  match decRes with
  | .error m => (wrapErr m, reg, 0)
  | .ok cfg =>
      match getActiveClient reg id with
      | some inst => (.ok (inst.tables.getD []) none, reg, 0)
      | none =>
          match factoryRes with
          | .error m => (wrapErr m, reg, 0)
          | .ok cid =>
              match clientRun cid with
              | .error m => (wrapErr m, reg, 1)
              | .ok tables =>
                  (.ok tables (some "Connected successfully"),
                   mapSet reg id
                     { dtype := cfg.dtype, clientId := cid,
                       tables := some tables, lastUsed := now }, 1)

/-- A query-history entry as recorded by the RUN_QUERY handler (the
wall-clock `executionTime` and `timestamp` fields are omitted). -/
structure HistEntry where
  connectionId : String
  connectionName : String
  query : List Char
  success : Bool
  deriving DecidableEq, Repr

/-- `queryHistoryManager.addToHistory`: unshift the new entry and cap the
list at `maxItems` (`settings.maxHistoryItems`). -/
def addToHistory (maxItems : Nat) (e : HistEntry) (hist : List HistEntry) :
    List HistEntry :=
  (e :: hist).take maxItems

/-- The connection-name lookup the RUN_QUERY handler performs over the
stored connections (`connection?.name || 'Unknown Connection'`). -/
def connectionNameFor (stored : List StoredConnection) (id : String) : String :=
  match List.find? (fun c => c.id = id) stored with
  | some c => c.name
  | none => "Unknown Connection"

/-- The error message of the RUN_QUERY guard. -/
def noActiveConnMsg : String :=
  "No active database connection found. Please connect to a database first."

/-- The RUN_QUERY handler.  `exec` is `clientInstance.client.executeQuery`
(the engine call, keyed by the client identity); `wrapErr` the
catch-branch `handleDatabaseError` classification, abstracted.  The
result carries the response, the registry (which no branch of the source
modifies), the history list, and the number of clients constructed (the
handler contains no `createDatabaseClient` call, so this is 0 on every
path).  The success message of the source interpolates the wall-clock
execution time and is abstracted to its fixed stem. -/
def runQueryHandler (wrapErr : String → Resp (List String))
    (exec : Nat → List Char → Except String (List String))
    (maxItems : Nat) (stored : List StoredConnection)
    (reg : Registry) (hist : List HistEntry) (id : String) (query : List Char) :
    Resp (List String) × Registry × List HistEntry × Nat :=
  match getActiveClient reg id with
  | none =>
      (.err noActiveConnMsg "CONNECTION_ERROR" (some "NO_ACTIVE_CONNECTION") true,
       reg, hist, 0)
  | some inst =>
      let name := connectionNameFor stored id
      match exec inst.clientId query with
      | .ok result =>
          (.ok result (some "Query executed successfully"), reg,
           addToHistory maxItems
             { connectionId := id, connectionName := name,
               query := trimL query, success := true } hist, 0)
      | .error m =>
          (wrapErr m, reg,
           addToHistory maxItems
             { connectionId := id, connectionName := name,
               query := trimL query, success := false } hist, 0)

/-- The DELETE_CONNECTION handler: tear down the live entry when one
exists (`getActiveClient` then `removeActiveClient`), then remove the
persisted record via `deleteConnection`; both cases return the success
response. -/
def deleteConnectionHandler (reg : Registry) (stored : List StoredConnection)
    (id : String) : Resp Unit × Registry × List StoredConnection :=
  let reg2 := match getActiveClient reg id with
    | some _ => removeActiveClient reg id
    | none => reg
  (.ok () (some "Connection deleted successfully"), reg2,
   deleteStoredConnection stored id)

/-! ## Concrete instantiations used by witnesses and counterexamples -/

/-- A degenerate key-derivation function (collapses every passphrase). -/
def cKdf : String → List Nat → List Nat := fun _ _ => []

/-- A degenerate keystream (all-zero, so XOR is the identity). -/
def cKs : List Nat → List Nat → Nat → Nat := fun _ _ _ => 0

/-- A degenerate tag function (constant empty tag). -/
def cTagF : List Nat → List Nat → List Nat → List Nat := fun _ _ _ => []

/-- A tag function returning the constant tag `[0]`. -/
def cTagOne : List Nat → List Nat → List Nat → List Nat := fun _ _ _ => [0]

/-- An envelope whose stored tag is empty. -/
def wEnv : Envelope := { salt := [], iv := [], authTag := [], encrypted := [] }

/-- A connection config whose `type` is not one of the four recognised
values. -/
def cfgOracle : ConnectionConfig :=
  { id := "id1", name := "n1", dtype := "oracle",
    postgresql := none, mongodb := none, mysql := none, sqlite3 := none }

/-- Another unrecognised-`type` config. -/
def cfgOracle2 : ConnectionConfig :=
  { id := "id3", name := "n3", dtype := "mssql",
    postgresql := none, mongodb := none, mysql := none, sqlite3 := none }

/-- A config with `type = 'postgresql'` but no `postgresql` payload. -/
def cfgMissingPg : ConnectionConfig :=
  { id := "id2", name := "n2", dtype := "postgresql",
    postgresql := none, mongodb := none, mysql := none, sqlite3 := none }

/-- A well-formed PostgreSQL config. -/
def cfgPg : ConnectionConfig :=
  { id := "cid", name := "cn", dtype := "postgresql",
    postgresql := some { host := "h", port := 5432, user := "u",
                         password := "pw", database := "db" },
    mongodb := none, mysql := none, sqlite3 := none }

/-- A concrete SQLite handle whose oracles are distinguishable. -/
def wH : SqliteHandle :=
  { allRows := fun q => [.record [(q, q)]],
    runStmt := fun _ => { changes := 3, lastInsertRowid := 42 },
    introspection := [] }

/-- A trivial catch-branch classifier. -/
def wrapErr0 : String → Resp (List String) :=
  fun m => .err m "DATABASE_ERROR" none false

/-- A concrete decrypted connection record. -/
def wDecCfg : DecryptedConn := { id := "c1", name := "n", dtype := "postgresql" }

/-- A concrete live client instance with a cached schema. -/
def wInst : ClientInstance :=
  { dtype := "postgresql", clientId := 1, tables := some ["t1"], lastUsed := 0 }

/-- A registry holding one live entry. -/
def wReg : Registry := [("c1", wInst)]

/-- A second live entry under a different id. -/
def wInstB : ClientInstance :=
  { dtype := "mysql", clientId := 2, tables := some ["t2"], lastUsed := 0 }

/-- A registry holding two live entries. -/
def wReg2 : Registry := [("c1", wInst), ("c2", wInstB)]

/-- A client-run oracle that always succeeds with an empty schema. -/
def wRun : Nat → Except String (List String) := fun _ => .ok []

/-- Two stored records, one sharing the id of a live entry. -/
def wStored : List StoredConnection :=
  [{ id := "c1", name := "n1", dtype := "postgresql", encryptedConfig := wEnv },
   { id := "c2", name := "n2", dtype := "mysql", encryptedConfig := wEnv }]

/-! ## Helper lemmas -/

theorem xorStream_involutive (ks : Nat → Nat) :
    ∀ (i : Nat) (l : List Nat), xorStream ks i (xorStream ks i l) = l := by
  intro i l
  induction l generalizing i with
  | nil => rfl
  | cons b bs ih => simp [xorStream, Nat.xor_cancel_right, ih]

theorem bytesStr_strBytes (s : String) : bytesStr (strBytes s) = s := by
  cases s with
  | mk data =>
      simp only [bytesStr, strBytes, List.map_map]
      congr 1
      induction data with
      | nil => rfl
      | cons c cs ih =>
          simp only [List.map_cons, Function.comp_apply, List.cons.injEq]
          exact ⟨Char.ofNat_toNat c, ih⟩

theorem find_key_filter_self (reg : Registry) (id : String) :
    List.find? (fun p => p.1 = id) (List.filter (fun p => p.1 ≠ id) reg) = none := by
  induction reg with
  | nil => rfl
  | cons kv t ih =>
      by_cases hk : kv.1 = id
      · simp [List.filter_cons, hk]
      · simp [List.filter_cons, hk]

theorem find_key_filter_other (reg : Registry) (id j : String) (h : j ≠ id) :
    List.find? (fun p => p.1 = j) (List.filter (fun p => p.1 ≠ id) reg)
      = List.find? (fun p => p.1 = j) reg := by
  have hpred : (fun (a : String × ClientInstance) =>
        decide (decide (a.1 ≠ id) = true ∧ decide (a.1 = j) = true))
      = fun a => decide (a.1 = j) := by
    funext a
    by_cases hj : a.1 = j
    · simp [hj, h]
    · simp [hj]
  rw [List.find?_filter, hpred]

/-! ## Claims -/

/-- C1: for every string `s` and passphrase `p` — and for every
instantiation of the key-derivation, keystream and tag primitives and of
the random salt and IV — decrypting the envelope produced by
`encrypt(s, p)` with the same passphrase `p` returns exactly `s`. -/
theorem encrypt_decrypt_roundtrip
    (kdf : String → List Nat → List Nat)
    (ks : List Nat → List Nat → Nat → Nat)
    (tagF : List Nat → List Nat → List Nat → List Nat)
    (salt iv : List Nat) (s p : String) :
    decrypt kdf ks tagF (encrypt kdf ks tagF salt iv s p) p = .ok s := by
  simp [decrypt, encrypt, xorStream_involutive, bytesStr_strBytes]

/-- C2 counterexample: read over the shallow embedding, where the
scrypt/AES-GCM primitives are parameters (their definitions live in
Node's crypto library, outside this repository), the claim asserts
wrong-passphrase rejection for every instantiation; it fails for the
degenerate instantiation that collapses all passphrases to the same key:
decryption under the distinct passphrase `p2` then succeeds and returns
the plaintext.  Unconditional rejection therefore rests on collision
properties of the external primitives, not on this repository's code. -/
theorem decrypt_wrong_key_cex :
    ("p1" : String) ≠ "p2" ∧
      decrypt cKdf cKs cTagF (encrypt cKdf cKs cTagF [] [] "hi" "p1") "p2"
        = .ok "hi" := by
  refine ⟨by decide, ?_⟩
  simp [decrypt, encrypt, cKdf, cKs, cTagF, xorStream_involutive, bytesStr_strBytes]

/-- C2 (amended): `decrypt` verifies the authentication tag before
producing anything: whenever the tag recomputed from the supplied
passphrase and the envelope differs from the stored tag, it fails with
the caller-visible authentication error, and in particular returns no
(partially-decrypted) plaintext. -/
theorem decrypt_wrong_tag_rejected
    (kdf : String → List Nat → List Nat)
    (ks : List Nat → List Nat → Nat → Nat)
    (tagF : List Nat → List Nat → List Nat → List Nat)
    (env : Envelope) (p : String)
    (h : tagF (kdf p env.salt) env.iv env.encrypted ≠ env.authTag) :
    decrypt kdf ks tagF env p = .error authFailureMsg := by
  simp [decrypt, h]

/-- Witness for `decrypt_wrong_tag_rejected` at a concrete envelope whose
stored tag differs from the recomputed one. -/
theorem decrypt_wrong_tag_rejected_witness :
    cTagOne (cKdf "p" wEnv.salt) wEnv.iv wEnv.encrypted ≠ wEnv.authTag ∧
      decrypt cKdf cKs cTagOne wEnv "p" = .error authFailureMsg :=
  ⟨by decide, decrypt_wrong_tag_rejected cKdf cKs cTagOne wEnv "p" (by decide)⟩

/-- C3: when decryption of the stored config succeeds and a live client
entry already exists for the id, the CONNECT_DB handler returns the
cached schema of that entry, leaves the registry untouched, and
constructs no new database client; with duplicate-free keys beforehand,
at most one live entry per id can thus exist afterwards. -/
theorem connectDb_idempotent
    (wrapErr : String → Resp (List String))
    (decRes : Except String DecryptedConn)
    (factoryRes : Except String Nat)
    (clientRun : Nat → Except String (List String))
    (reg : Registry) (id : String) (now : Nat)
    (cfg : DecryptedConn) (inst : ClientInstance)
    (h1 : decRes = .ok cfg)
    (h2 : getActiveClient reg id = some inst)
    (h3 : (reg.map Prod.fst).Nodup) :
    connectDbHandler wrapErr decRes factoryRes clientRun reg id now
      = (.ok (inst.tables.getD []) none, reg, 0) ∧
    (((connectDbHandler wrapErr decRes factoryRes clientRun reg id now).2.1).map
        Prod.fst).Nodup := by
  subst h1
  refine ⟨by simp [connectDbHandler, h2], ?_⟩
  simp only [connectDbHandler, h2]
  exact h3

/-- Witness for `connectDb_idempotent` on a one-entry registry. -/
theorem connectDb_idempotent_witness :
    getActiveClient wReg "c1" = some wInst ∧
      connectDbHandler wrapErr0 (.ok wDecCfg) (.ok 7) wRun wReg "c1" 5
        = (.ok ["t1"] none, wReg, 0) :=
  ⟨rfl,
   (connectDb_idempotent wrapErr0 (.ok wDecCfg) (.ok 7) wRun wReg "c1" 5 wDecCfg
      wInst rfl rfl (by decide)).1⟩

/-- C7: when the Connection Manager has no live entry for the id, the
RUN_QUERY handler fails immediately with the `NO_ACTIVE_CONNECTION`
coded, retryable `CONNECTION_ERROR`; it constructs no client, and leaves
both the registry and the query history unchanged. -/
theorem runQuery_no_active_connection
    (wrapErr : String → Resp (List String))
    (exec : Nat → List Char → Except String (List String))
    (maxItems : Nat) (stored : List StoredConnection)
    (reg : Registry) (hist : List HistEntry) (id : String) (query : List Char)
    (h : getActiveClient reg id = none) :
    runQueryHandler wrapErr exec maxItems stored reg hist id query
      = (.err noActiveConnMsg "CONNECTION_ERROR" (some "NO_ACTIVE_CONNECTION") true,
         reg, hist, 0) := by
  simp [runQueryHandler, h]

/-- Witness for `runQuery_no_active_connection` on an empty registry. -/
theorem runQuery_no_active_connection_witness :
    getActiveClient [] "c9" = none ∧
      runQueryHandler wrapErr0 (fun _ _ => .ok []) 1000 wStored [] [] "c9"
          "select 1".data
        = (.err noActiveConnMsg "CONNECTION_ERROR" (some "NO_ACTIVE_CONNECTION") true,
           [], [], 0) :=
  ⟨rfl,
   runQuery_no_active_connection wrapErr0 (fun _ _ => .ok []) 1000 wStored [] []
     "c9" "select 1".data rfl⟩

/-- C8: for every registry, stored list and id, the DELETE_CONNECTION
handler succeeds, after it no live entry for the id remains (a live entry
is torn down first when present, and its absence is not an error), every
other live entry is untouched, and the persisted records are exactly the
previous ones whose id differs. -/
theorem deleteConnection_removes_both (reg : Registry)
    (stored : List StoredConnection) (id : String) :
    (deleteConnectionHandler reg stored id).1
        = .ok () (some "Connection deleted successfully") ∧
    getActiveClient (deleteConnectionHandler reg stored id).2.1 id = none ∧
    (∀ j, j ≠ id →
      getActiveClient (deleteConnectionHandler reg stored id).2.1 j
        = getActiveClient reg j) ∧
    (∀ c, c ∈ (deleteConnectionHandler reg stored id).2.2 ↔
      (c ∈ stored ∧ c.id ≠ id)) := by
  refine ⟨rfl, ?_, ?_, ?_⟩
  · show getActiveClient
        (match getActiveClient reg id with
          | some _ => removeActiveClient reg id
          | none => reg) id = none
    cases hx : getActiveClient reg id with
    | none => simp only [hx]
    | some inst =>
        simp only [hx]
        simp only [removeActiveClient, hx]
        simp only [getActiveClient, find_key_filter_self]
  · intro j hj
    show getActiveClient
        (match getActiveClient reg id with
          | some _ => removeActiveClient reg id
          | none => reg) j = getActiveClient reg j
    cases hx : getActiveClient reg id with
    | none => simp only [hx]
    | some inst =>
        simp only [hx]
        simp only [removeActiveClient, hx]
        simp only [getActiveClient, find_key_filter_other reg id j hj]
  · intro c
    simp [deleteConnectionHandler, deleteStoredConnection, List.mem_filter]

/-- Witness for `deleteConnection_removes_both` on a two-entry registry
and a two-record store. -/
theorem deleteConnection_removes_both_witness :
    getActiveClient (deleteConnectionHandler wReg2 wStored "c1").2.1 "c1" = none ∧
    getActiveClient (deleteConnectionHandler wReg2 wStored "c1").2.1 "c2"
      = getActiveClient wReg2 "c2" ∧
    ((wStored.get ⟨1, by decide⟩) ∈ (deleteConnectionHandler wReg2 wStored "c1").2.2 ↔
      ((wStored.get ⟨1, by decide⟩) ∈ wStored ∧ (wStored.get ⟨1, by decide⟩).id ≠ "c1")) :=
  ⟨(deleteConnection_removes_both wReg2 wStored "c1").2.1,
   (deleteConnection_removes_both wReg2 wStored "c1").2.2.1 "c2" (by decide),
   (deleteConnection_removes_both wReg2 wStored "c1").2.2.2 _⟩

/-- C4 counterexample: for an unrecognised `type` value the `getConfig`
switch returns `null`, `JSON.stringify(null)` is the text `null`, and
`saveEncryptedConnection` persists a record encrypting that text — it
does not fail with an unsupported-type error (that failure lives in
`createDatabaseClient`, not here). -/
theorem saveEncrypted_unsupported_persists_cex :
    saveEncryptedConnection cKdf cKs cTagF [] [] [] cfgOracle "pw"
      = .ok [{ id := "id1", name := "n1", dtype := "oracle",
               encryptedConfig := encrypt cKdf cKs cTagF [] [] "null" "pw" }] := rfl

/-- C4 (amended): `saveEncrypted` selects exactly the engine-specific
sub-payload matching the config's `type` for each of the four recognised
values; for an unrecognised `type` it selects the `null` payload and
still persists a record encrypting the JSON text `null` instead of
failing. -/
theorem saveEncrypted_payload_routing
    (kdf : String → List Nat → List Nat)
    (ks : List Nat → List Nat → Nat → Nat)
    (tagF : List Nat → List Nat → List Nat → List Nat)
    (salt iv : List Nat) (stored : List StoredConnection)
    (config : ConnectionConfig) (key : String) :
    (config.dtype = "postgresql" →
      getConfig config = .field (config.postgresql.map .pg)) ∧
    (config.dtype = "mongodb" →
      getConfig config = .field (config.mongodb.map .mongo)) ∧
    (config.dtype = "mysql" →
      getConfig config = .field (config.mysql.map .my)) ∧
    (config.dtype = "sqlite3" →
      getConfig config = .field (config.sqlite3.map .sqlite)) ∧
    (config.dtype ≠ "postgresql" → config.dtype ≠ "mongodb" →
     config.dtype ≠ "mysql" → config.dtype ≠ "sqlite3" →
      saveEncryptedConnection kdf ks tagF salt iv stored config key
        = .ok (stored ++
            [{ id := config.id, name := config.name, dtype := config.dtype,
               encryptedConfig := encrypt kdf ks tagF salt iv "null" key }])) := by
  refine ⟨?_, ?_, ?_, ?_, ?_⟩
  · intro h; simp [getConfig, h]
  · intro h; simp [getConfig, h]
  · intro h; simp [getConfig, h]
  · intro h; simp [getConfig, h]
  · intro h1 h2 h3 h4
    simp [saveEncryptedConnection, getConfig, stringifySel, h1, h2, h3, h4]

/-- Witness for `saveEncrypted_payload_routing`: the recognised
`postgresql` routing and the unrecognised-`type` persistence, each at a
concrete config. -/
theorem saveEncrypted_payload_routing_witness :
    getConfig cfgPg = .field (cfgPg.postgresql.map .pg) ∧
      saveEncryptedConnection cKdf cKs cTagF [] [] [] cfgOracle2 "pw"
        = .ok [{ id := "id3", name := "n3", dtype := "mssql",
                 encryptedConfig := encrypt cKdf cKs cTagF [] [] "null" "pw" }] :=
  ⟨(saveEncrypted_payload_routing cKdf cKs cTagF [] [] [] cfgPg "pw").1 rfl,
   (saveEncrypted_payload_routing cKdf cKs cTagF [] [] [] cfgOracle2 "pw").2.2.2.2
     (by decide) (by decide) (by decide) (by decide)⟩

/-- C9 counterexample: for a config whose `type` is recognised but whose
matching engine field is absent, `getConfig` returns `undefined`,
`JSON.stringify` passes `undefined` through, and `cipher.update` throws;
nothing is appended, refuting the for-every-config reading. -/
theorem saveEncrypted_missing_payload_cex :
    saveEncryptedConnection cKdf cKs cTagF [] [] [] cfgMissingPg "k"
      = .error updateUndefinedMsg := rfl

/-- C9 (amended): whenever the selected sub-payload stringifies (the
matching engine field is present, or the `type` is unrecognised and
`null` is selected), `saveEncrypted` appends exactly one new record at
the end, leaves every previously stored record unchanged, and performs no
id deduplication: each such save increments the number of records bearing
the config's id by one (so two saves with the same id yield two
records). -/
theorem saveEncrypted_appends
    (kdf : String → List Nat → List Nat)
    (ks : List Nat → List Nat → Nat → Nat)
    (tagF : List Nat → List Nat → List Nat → List Nat)
    (salt iv : List Nat) (stored : List StoredConnection)
    (config : ConnectionConfig) (key text : String)
    (h : stringifySel (getConfig config) = some text) :
    saveEncryptedConnection kdf ks tagF salt iv stored config key
      = .ok (stored ++
          [{ id := config.id, name := config.name, dtype := config.dtype,
             encryptedConfig := encrypt kdf ks tagF salt iv text key }]) ∧
    ((stored ++
        [({ id := config.id, name := config.name, dtype := config.dtype,
            encryptedConfig := encrypt kdf ks tagF salt iv text key }
          : StoredConnection)]).take
      stored.length) = stored ∧
    ((stored ++
        [({ id := config.id, name := config.name, dtype := config.dtype,
            encryptedConfig := encrypt kdf ks tagF salt iv text key }
          : StoredConnection)]).filter
      (fun c => c.id = config.id)).length
      = (stored.filter (fun c => c.id = config.id)).length + 1 := by
  refine ⟨?_, ?_, ?_⟩
  · simp [saveEncryptedConnection, h]
  · exact List.take_left stored _
  · simp [List.filter_append]

/-- Witness for `saveEncrypted_appends` at a well-formed PostgreSQL
config. -/
theorem saveEncrypted_appends_witness :
    stringifySel (getConfig cfgPg)
        = some (jsonPayload (.pg { host := "h", port := 5432, user := "u",
                                   password := "pw", database := "db" })) ∧
      saveEncryptedConnection cKdf cKs cTagF [] [] [] cfgPg "k"
        = .ok [{ id := "cid", name := "cn", dtype := "postgresql",
                 encryptedConfig := encrypt cKdf cKs cTagF [] []
                   (jsonPayload (.pg { host := "h", port := 5432, user := "u",
                                       password := "pw", database := "db" })) "k" }] :=
  ⟨rfl,
   (saveEncrypted_appends cKdf cKs cTagF [] [] [] cfgPg "k"
      (jsonPayload (.pg { host := "h", port := 5432, user := "u",
                          password := "pw", database := "db" })) rfl).1⟩

/-- C5 counterexample: `db.users.deleteMany(\x7b\x7d)` — the generic
pattern with a method other than `aggregate` — is rejected with exactly
the same error value that a query matching neither pattern receives, so
the rejection is not a distinct unsupported-operation error (a distinct
message exists only in a commented-out older interpreter). -/
theorem mongo_unsupported_same_error_cex :
    Mongodb.executeQuery "db.users.deleteMany(\x7b\x7d)".data
        = .error invalidMongoMsg ∧
      Mongodb.executeQuery "not a query".data = .error invalidMongoMsg :=
  ⟨rfl, rfl⟩

/-- C5 (amended): a query matching the generic `db.<ident>.<ident>(<args>)`
pattern with a method other than `aggregate` (and not matching the `find`
pattern) is rejected — no collection action is produced, so the named
collection is never accessed — but with the same
`Invalid MongoDB query format` error that a query matching neither
pattern receives, not a distinct unsupported-operation error. -/
theorem mongo_generic_non_aggregate_rejected
    (q q2 coll meth args : List Char)
    (h1 : matchGeneric (trimL q) = some (coll, meth, args))
    (h2 : meth ≠ "aggregate".data) (h3 : meth ≠ "find".data)
    (h4 : matchGeneric (trimL q2) = none) :
    Mongodb.executeQuery q = .error invalidMongoMsg ∧
      Mongodb.executeQuery q2 = .error invalidMongoMsg := by
  constructor
  · simp [Mongodb.executeQuery, matchFind, h1, h2, h3]
  · simp [Mongodb.executeQuery, matchFind, h4]

/-- Witness for `mongo_generic_non_aggregate_rejected` at the spec's
`deleteMany` example and a non-matching input. -/
theorem mongo_generic_non_aggregate_rejected_witness :
    matchGeneric (trimL "db.users.deleteMany(\x7b\x7d)".data)
        = some ("users".data, "deleteMany".data, "\x7b\x7d".data) ∧
      "deleteMany".data ≠ "aggregate".data ∧
      Mongodb.executeQuery "db.users.deleteMany(\x7b\x7d)".data
        = .error invalidMongoMsg :=
  ⟨rfl, by decide,
   (mongo_generic_non_aggregate_rejected "db.users.deleteMany(\x7b\x7d)".data
      "not a query".data "users".data "deleteMany".data "\x7b\x7d".data rfl
      (by decide) (by decide) rfl).1⟩

/-- C6: after trimming and uppercasing, a query starting with `SELECT`,
`WITH` or `PRAGMA` is executed as a read returning the statement's row
set, and every other query is executed as a mutation returning exactly
one synthetic summary row carrying the change count and last inserted
rowid. -/
theorem sqlite_query_classification (h : SqliteHandle) (q : List Char) :
    (("SELECT".data.isPrefixOf ((trimL q).map Char.toUpper) ||
      "WITH".data.isPrefixOf ((trimL q).map Char.toUpper) ||
      "PRAGMA".data.isPrefixOf ((trimL q).map Char.toUpper)) = true →
        SQLite.executeQuery (some h) q = .ok (h.allRows q)) ∧
    (("SELECT".data.isPrefixOf ((trimL q).map Char.toUpper) ||
      "WITH".data.isPrefixOf ((trimL q).map Char.toUpper) ||
      "PRAGMA".data.isPrefixOf ((trimL q).map Char.toUpper)) = false →
        SQLite.executeQuery (some h) q
          = .ok [.summary (h.runStmt q).changes (h.runStmt q).lastInsertRowid
                  (sqliteSummaryMessage (h.runStmt q).changes)]) := by
  constructor
  · intro hc
    simp [SQLite.executeQuery, hc]
  · intro hc
    simp [SQLite.executeQuery, hc]

/-- Witness for `sqlite_query_classification` at the spec's two examples:
a lowercase SELECT with leading whitespace, and an INSERT. -/
theorem sqlite_query_classification_witness :
    SQLite.executeQuery (some wH) "  select * from t".data
        = .ok (wH.allRows "  select * from t".data) ∧
      SQLite.executeQuery (some wH) "insert into t values (1)".data
        = .ok [.summary 3 42 (sqliteSummaryMessage 3)] :=
  ⟨(sqlite_query_classification wH "  select * from t".data).1 (by decide),
   (sqlite_query_classification wH "insert into t values (1)".data).2 (by decide)⟩

/-- C10: with no live handle — in the initial state or after
`disconnect`, which always clears the field — `executeQuery` and
`getSchemaVisualization` of the SQLite and MySQL clients fail with the
`connection not established` error, the only possible outcome in that
state. -/
theorem db_guard_not_connected (st : Option SqliteHandle)
    (stM : Option MySqlHandle) (q : List Char) :
    SQLite.executeQuery SQLite.initState q = .error sqliteNotConnectedMsg ∧
    SQLite.getSchemaVisualization SQLite.initState = .error sqliteNotConnectedMsg ∧
    SQLite.executeQuery (SQLite.disconnect st) q = .error sqliteNotConnectedMsg ∧
    SQLite.getSchemaVisualization (SQLite.disconnect st)
      = .error sqliteNotConnectedMsg ∧
    MySQL.executeQuery MySQL.initState q = .error mysqlNotConnectedMsg ∧
    MySQL.getSchemaVisualization MySQL.initState = .error mysqlNotConnectedMsg ∧
    MySQL.executeQuery (MySQL.disconnect stM) q = .error mysqlNotConnectedMsg ∧
    MySQL.getSchemaVisualization (MySQL.disconnect stM)
      = .error mysqlNotConnectedMsg :=
  ⟨rfl, rfl, rfl, rfl, rfl, rfl, rfl, rfl⟩

end AiDbStudio
